import Mathlib

/-!
Shallow embedding of the movieme short-video player and verification of its
specification claims.  The player logic lives in the MoviePlayer component
(src/unnamed/part_001, the variant mounted by src/src/App.tsx) together with
the bootstrap glue in App.tsx; the near-duplicate standalone variant
(src/unnamed/part_000) contributes only its empty-list render guard.

React state is modelled as an explicit record; each event handler becomes a
pure function on that record.  Asynchronous play() outcomes are passed in as
Booleans (ok1: the first play() call resolves, ok2: the muted retry resolves).
Functions that call play() also return the number of play() calls they issue,
so that "a Play Attempt is issued" is an observable of the model; the
clip-end handler additionally returns whether it reset currentTime to 0.
-/

namespace Movieme

/-- A clip as consumed by the player: id, media url, title (App.tsx maps the
fetched records into this shape). -/
structure Video where
  id : Int
  url : String
  title : String
deriving DecidableEq

/-- The durable key-value store (browser localStorage) restricted to the two
keys the program uses: "visited" and "videoMuted".  `none` models an absent
key (getItem returning null). -/
structure Store where
  visited : Option String
  videoMuted : Option String
deriving DecidableEq

/-- JavaScript truthiness test used by App.tsx line 15 (`if (!visited)`):
null and the empty string are falsy, every other string is truthy. -/
def jsFalsy : Option String → Bool
  | none => true
  | some s => s = ""

/-- The first-visit initializer of App.tsx lines 13-20: read the "visited"
key; if it is falsy, write "true" under it and report a first visit,
otherwise report a repeat visit with no write. -/
def isFirstVisitInit (st : Store) : Bool × Store :=
  if jsFalsy st.visited then (true, { st with visited := some "true" })
  else (false, st)

/-- The PersistentPreferences operation `hasVisitedBefore`, as realized by the
first-visit initializer of the code (App.tsx lines 13-20): it returns the negation
of the isFirstVisit result and shares its side effect on the store. -/
def hasVisitedBefore (st : Store) : Bool × Store :=
  (!(isFirstVisitInit st).1, (isFirstVisitInit st).2)

/-- Results of `hasVisitedBefore` over k successive calls threading the store,
paired with the final store. -/
def runCalls : Nat → Store → List Bool × Store
  | 0, st => ([], st)
  | k + 1, st =>
      let r := hasVisitedBefore st
      let rest := runCalls k r.2
      (r.1 :: rest.1, rest.2)

/-- The sound-preference initializer of MoviePlayer lines 108-111: true
exactly when the stored "videoMuted" flag is the string "false". -/
def shouldUnmuteInit (st : Store) : Bool :=
  st.videoMuted = some "false"

/-- The React state of the MoviePlayer component (src/unnamed/part_001 lines
103-112), plus `elemMuted`, the muted property of the underlying media
element (rendered from `isMuted` via the muted prop, but also mutated
directly by the failure path of tryPlayVideo). -/
structure PlayerState where
  currentIndex : Nat
  isPlaying : Bool
  showWelcome : Bool
  playCount : Nat
  isMuted : Bool
  shouldUnmute : Bool
  elemMuted : Bool
deriving DecidableEq

/-- Initial MoviePlayer state for a session (lines 103-111): index 0, playing,
welcome shown iff this is the first visit, zero play count, muted, sound
preference read once from the store. -/
def initPlayer (isFirstVisit : Bool) (st : Store) : PlayerState :=
  { currentIndex := 0
    isPlaying := true
    showWelcome := isFirstVisit
    playCount := 0
    isMuted := true
    shouldUnmute := shouldUnmuteInit st
    elemMuted := true }

/-- tryPlayVideo (lines 114-133).  `refPresent` models the `videoRef.current`
null check.  On a resolving play(): unmute the React state if the stored
preference asks for it.  On rejection: set the muted property of the media element
to true directly and call play() once more; a rejection of the retry is only
logged.  Returns the state and the number of play() calls issued. -/
def tryPlayVideo (refPresent ok1 ok2 : Bool) (s : PlayerState) :
    PlayerState × Nat :=
  if refPresent then
    if ok1 then
      (if s.shouldUnmute then { s with isMuted := false } else s, 1)
    else
      ({ s with elemMuted := true }, if ok2 then 2 else 2)
  else
    (s, 0)

/-- handleVideoEnd (lines 135-145).  The functional update increments
playCount, while the branch condition reads the pre-event value captured by the closure.
Returns the state, the number of play() calls, and whether currentTime was
reset to 0 (the rewind). -/
def handleVideoEnd (refPresent ok1 ok2 : Bool) (s : PlayerState) :
    PlayerState × Nat × Bool :=
  let s1 : PlayerState := { s with playCount := s.playCount + 1 }
  if s.playCount ≥ 1 then
    ({ s1 with isPlaying := false }, 0, false)
  else
    if refPresent then
      let r := tryPlayVideo refPresent ok1 ok2 s1
      (r.1, r.2, true)
    else
      (s1, 0, false)

/-- Navigation direction. -/
inductive NavDirection
  | prev
  | next
deriving DecidableEq

/-- handleNavigation (lines 147-157), with n = videos.length captured at the
time of the request: wrap the index, reset playCount, set isPlaying. -/
def handleNavigation (dir : NavDirection) (n : Nat) (s : PlayerState) :
    PlayerState :=
  let newIndex :=
    match dir with
    | NavDirection.prev => if s.currentIndex = 0 then n - 1 else s.currentIndex - 1
    | NavDirection.next => if s.currentIndex = n - 1 then 0 else s.currentIndex + 1
  { s with currentIndex := newIndex, playCount := 0, isPlaying := true }

/-- Key codes distinguished by handleKeyPress (lines 166-179). -/
inductive KeyCode
  | arrowLeft
  | arrowRight
  | space
  | other
deriving DecidableEq

/-- handleKeyPress (lines 166-179): arrows navigate, space toggles play. -/
def handleKeyPress (k : KeyCode) (n : Nat) (s : PlayerState) : PlayerState :=
  match k with
  | KeyCode.arrowLeft => handleNavigation NavDirection.prev n s
  | KeyCode.arrowRight => handleNavigation NavDirection.next n s
  | KeyCode.space => { s with isPlaying := !s.isPlaying }
  | KeyCode.other => s

/-- handleVideoClick (lines 201-206): toggle play unless the click target is a
button element. -/
def handleVideoClick (targetIsButton : Bool) (s : PlayerState) : PlayerState :=
  if targetIsButton then s else { s with isPlaying := !s.isPlaying }

/-- The isPlaying/currentIndex effect (lines 181-189): when the element is
mounted, play via tryPlayVideo if isPlaying, else pause the element.  Returns
the number of play() calls. -/
def playEffectRun (refPresent ok1 ok2 : Bool) (s : PlayerState) :
    PlayerState × Nat :=
  if refPresent then
    if s.isPlaying then tryPlayVideo refPresent ok1 ok2 s
    else (s, 0)
  else
    (s, 0)

/-- The fixed welcome-overlay timer duration in milliseconds (line 196). -/
def welcomeTimerMs : Nat := 3000

/-- The body of the welcome-dismissal timer callback (lines 193-196): hide the
overlay, then attempt playback. -/
def welcomeDismiss (refPresent ok1 ok2 : Bool) (s : PlayerState) :
    PlayerState × Nat :=
  tryPlayVideo refPresent ok1 ok2 { s with showWelcome := false }

/-- The autoPlay attribute on the rendered video element (line 233). -/
def styledVideoAutoPlay : Bool := true

/-- The render condition of the unmute control (line 238):
`isMuted && shouldUnmute`. -/
def unmuteButtonVisible (s : PlayerState) : Bool :=
  s.isMuted && s.shouldUnmute

/-- The click handler of the unmute control (lines 240-244): clear isMuted and
persist "videoMuted" = "false". -/
def unmuteClick (s : PlayerState) (st : Store) : PlayerState × Store :=
  ({ s with isMuted := false }, { st with videoMuted := some "false" })

/-- The externally driven events a mounted player session reacts to.  Play
outcomes ride on the events that trigger play attempts. -/
inductive Event
  | keyDown (k : KeyCode)
  | videoClick (targetIsButton : Bool)
  | navClick (dir : NavDirection)
  | swipe (dir : NavDirection)
  | videoEnd (ok1 ok2 : Bool)
  | playEffect (ok1 ok2 : Bool)
  | welcomeTimer (ok1 ok2 : Bool)
  | unmuteButton
deriving DecidableEq

/-- One event step of the mounted session: player state plus store.  n is
videos.length, constant for the session; the media element ref is present
while the player is mounted.  The welcome timer only fires while the overlay
shows (the scheduling effect, lines 191-199), and the unmute control can only
be clicked while it is rendered (line 238). -/
def step (n : Nat) (e : Event) (ss : PlayerState × Store) :
    PlayerState × Store :=
  match e with
  | Event.keyDown k => (handleKeyPress k n ss.1, ss.2)
  | Event.videoClick b => (handleVideoClick b ss.1, ss.2)
  | Event.navClick d => (handleNavigation d n ss.1, ss.2)
  | Event.swipe d => (handleNavigation d n ss.1, ss.2)
  | Event.videoEnd ok1 ok2 => ((handleVideoEnd true ok1 ok2 ss.1).1, ss.2)
  | Event.playEffect ok1 ok2 => ((playEffectRun true ok1 ok2 ss.1).1, ss.2)
  | Event.welcomeTimer ok1 ok2 =>
      if ss.1.showWelcome then ((welcomeDismiss true ok1 ok2 ss.1).1, ss.2)
      else ss
  | Event.unmuteButton =>
      if unmuteButtonVisible ss.1 then unmuteClick ss.1 ss.2
      else ss

/-- Run a mounted player session: initial state from the first-visit flag and
the store, then fold the events. -/
def runSession (n : Nat) (isFirstVisit : Bool) (st : Store)
    (evs : List Event) : PlayerState × Store :=
  evs.foldl (fun ss e => step n e ss) (initPlayer isFirstVisit st, st)

/-- A full App session against an initial store: App.tsx computes the
first-visit flag (writing the marker), then mounts the player with it. -/
def sessionRun (n : Nat) (st0 : Store) (evs : List Event) :
    PlayerState × Store :=
  runSession n (isFirstVisitInit st0).1 (isFirstVisitInit st0).2 evs

/-- The events that can clear isMuted: a play attempt whose first play() call
resolves while the stored sound preference (su) asks for unmuting, or a click
on the unmute control. -/
def eventUnmutes (su : Bool) : Event → Bool
  | Event.videoEnd true _ => su
  | Event.playEffect true _ => su
  | Event.welcomeTimer true _ => su
  | Event.unmuteButton => true
  | _ => false

/-- A record of the remote payload as consumed by App.tsx lines 42-46. -/
structure RawMovie where
  id : Int
  video_url : String
  title : String
deriving DecidableEq

/-- Outcome of the startup fetch in App.tsx lines 22-57: a network or JSON
error (caught, logged), the no_more_new_videos sentinel, a payload on which
`data.map` throws (also caught), or an array of records. -/
inductive FetchResult
  | networkError
  | noMoreNewVideos
  | parseFailure
  | payload (items : List RawMovie)
deriving DecidableEq

/-- The videos state App.tsx ends up with for each fetch outcome: every
failure and the sentinel leave the empty list; an array is mapped into the
internal Video shape (lines 38-48, with the catch of lines 49-51). -/
def fetchedVideos : FetchResult → List Video
  | FetchResult.networkError => []
  | FetchResult.noMoreNewVideos => []
  | FetchResult.parseFailure => []
  | FetchResult.payload items =>
      items.map (fun m => { id := m.id, url := m.video_url, title := m.title })

/-- What App.tsx renders (lines 59-69). -/
inductive AppView
  | loadingText
  | noVideosText
  | moviePlayer (videos : List Video) (isFirstVisit : Bool)
deriving DecidableEq

/-- The App render function (lines 59-69): a loading message while the fetch
is pending, the player when the list is non-empty, else the terminal
"No videos to display." message. -/
def appRender (loading : Bool) (videos : List Video) (isFirstVisit : Bool) :
    AppView :=
  if loading then AppView.loadingText
  else if videos.length > 0 then AppView.moviePlayer videos isFirstVisit
  else AppView.noVideosText

/-- What the standalone player variant renders (src/unnamed/part_000). -/
inductive Player0View
  | loadingText
  | playerUI
deriving DecidableEq

/-- The empty-list render guard of the standalone player variant
(src/unnamed/part_000 lines 218-220). -/
def moviePlayer0Render (videos : List Video) : Player0View :=
  if videos.length = 0 then Player0View.loadingText else Player0View.playerUI

/-- A concrete prior state (paused, ended) with currentIndex 0, for the C1
witness. -/
def c1State : PlayerState :=
  { currentIndex := 0
    isPlaying := false
    showWelcome := false
    playCount := 2
    isMuted := true
    shouldUnmute := false
    elemMuted := true }

/-- A freshly navigated-to state (count 0), for the C2 witness. -/
def c2StateA : PlayerState :=
  { currentIndex := 1
    isPlaying := true
    showWelcome := false
    playCount := 0
    isMuted := true
    shouldUnmute := false
    elemMuted := true }

/-- The same state after one clip end (count 1), for the C2 witness. -/
def c2StateB : PlayerState :=
  { c2StateA with playCount := 1 }

/-- Store of a returning visitor who previously chose sound on. -/
def c3Store : Store :=
  { visited := some "true", videoMuted := some "false" }

/-- Store of a returning visitor who never stored a sound preference. -/
def mutedStore : Store :=
  { visited := some "true", videoMuted := none }

/-- A completely fresh store: no key has ever been written. -/
def freshStore : Store :=
  { visited := none, videoMuted := none }

/-- A concrete clip, for witnesses. -/
def sampleVideo : Video :=
  { id := 1, url := "https://example.test/clip.mp4", title := "clip one" }

end Movieme

namespace Movieme

/-- Claim C1: for a non-empty clip list of length n and any prior state with a
valid index, a navigation request sets currentIndex to (i - 1 + n) mod n for
prev and (i + 1) mod n for next (computed over the integers), keeps the index
in [0, n), resets the replay count to 0 and sets isPlaying to true, regardless
of every other component of the prior state. -/
theorem navigation_wraps (dir : NavDirection) (n : Nat) (s : PlayerState)
    (hn : 1 ≤ n) (hi : s.currentIndex < n) :
    ((handleNavigation dir n s).currentIndex : Int) =
      (match dir with
       | NavDirection.prev => ((s.currentIndex : Int) - 1 + n) % n
       | NavDirection.next => ((s.currentIndex : Int) + 1) % n) ∧
    (handleNavigation dir n s).currentIndex < n ∧
    (handleNavigation dir n s).playCount = 0 ∧
    (handleNavigation dir n s).isPlaying = true := by
  have hmod : ∀ x : Int, (x + (n : Int)) % (n : Int) = x % (n : Int) := by
    intro x
    have h := Int.add_mul_emod_self_left (a := x) (b := (n : Int)) (c := 1)
    rw [mul_one] at h
    exact h
  cases dir with
  | prev =>
      by_cases h0 : s.currentIndex = 0
      · refine ⟨?_, ?_, rfl, rfl⟩
        · simp only [handleNavigation]
          rw [if_pos h0, h0]
          have h1 : ((0 : Nat) : Int) - 1 + (n : Int) = (n : Int) - 1 := by
            push_cast
            ring
          rw [h1, Int.emod_eq_of_lt (by omega) (by omega)]
          omega
        · simp only [handleNavigation]
          rw [if_pos h0]
          omega
      · refine ⟨?_, ?_, rfl, rfl⟩
        · simp only [handleNavigation]
          rw [if_neg h0, hmod, Int.emod_eq_of_lt (by omega) (by omega)]
          omega
        · simp only [handleNavigation]
          rw [if_neg h0]
          omega
  | next =>
      by_cases h0 : s.currentIndex = n - 1
      · refine ⟨?_, ?_, rfl, rfl⟩
        · simp only [handleNavigation]
          rw [if_pos h0, h0]
          have h1 : ((n - 1 : Nat) : Int) + 1 = (n : Int) := by omega
          rw [h1, Int.emod_self]
          simp
        · simp only [handleNavigation]
          rw [if_pos h0]
          omega
      · refine ⟨?_, ?_, rfl, rfl⟩
        · simp only [handleNavigation]
          rw [if_neg h0, Int.emod_eq_of_lt (by omega) (by omega)]
          push_cast
          ring
        · simp only [handleNavigation]
          rw [if_neg h0]
          omega

/-- Witness for navigation_wraps: at n = 3 from index 0, prev wraps to 2 and
resets the replay count and playing flag. -/
theorem navigation_wraps_witness :
    (1 ≤ 3 ∧ c1State.currentIndex < 3) ∧
    (((handleNavigation NavDirection.prev 3 c1State).currentIndex : Int) =
        ((c1State.currentIndex : Int) - 1 + ((3 : Nat) : Int)) % ((3 : Nat) : Int) ∧
      (handleNavigation NavDirection.prev 3 c1State).currentIndex < 3 ∧
      (handleNavigation NavDirection.prev 3 c1State).playCount = 0 ∧
      (handleNavigation NavDirection.prev 3 c1State).isPlaying = true) :=
  ⟨⟨by decide, by decide⟩,
    navigation_wraps NavDirection.prev 3 c1State (by decide) (by decide)⟩

/-- Claim C2: a clip end with no prior end since the last navigation (count
becomes 1) rewinds the clip and issues a Play Attempt, leaving the index
unchanged; a second end (count becomes 2) sets isPlaying to false, leaves the
index unchanged (no auto-advance), rewinds nothing and attempts no playback. -/
theorem clip_end_policy (s : PlayerState) (ok1 ok2 : Bool) :
    (s.playCount = 0 →
      (handleVideoEnd true ok1 ok2 s).1.playCount = 1 ∧
      (handleVideoEnd true ok1 ok2 s).2.2 = true ∧
      1 ≤ (handleVideoEnd true ok1 ok2 s).2.1 ∧
      (handleVideoEnd true ok1 ok2 s).1.currentIndex = s.currentIndex) ∧
    (s.playCount = 1 →
      (handleVideoEnd true ok1 ok2 s).1.playCount = 2 ∧
      (handleVideoEnd true ok1 ok2 s).1.isPlaying = false ∧
      (handleVideoEnd true ok1 ok2 s).1.currentIndex = s.currentIndex ∧
      (handleVideoEnd true ok1 ok2 s).2.1 = 0 ∧
      (handleVideoEnd true ok1 ok2 s).2.2 = false) := by
  constructor
  · intro h
    have hlt : ¬ s.playCount ≥ 1 := by omega
    cases ok1
    · simp [handleVideoEnd, tryPlayVideo, hlt, h]
    · simp only [handleVideoEnd, tryPlayVideo, hlt, h]
      split_ifs <;> first
        | omega
        | simp
  · intro h
    have hge : s.playCount ≥ 1 := by omega
    simp [handleVideoEnd, hge, h]

/-- Witness for clip_end_policy: first end rewinds and replays, second end
halts without advancing. -/
theorem clip_end_policy_witness :
    ((handleVideoEnd true true true c2StateA).1.playCount = 1 ∧
      (handleVideoEnd true true true c2StateA).2.2 = true ∧
      1 ≤ (handleVideoEnd true true true c2StateA).2.1 ∧
      (handleVideoEnd true true true c2StateA).1.currentIndex = c2StateA.currentIndex) ∧
    ((handleVideoEnd true true true c2StateB).1.playCount = 2 ∧
      (handleVideoEnd true true true c2StateB).1.isPlaying = false ∧
      (handleVideoEnd true true true c2StateB).1.currentIndex = c2StateB.currentIndex ∧
      (handleVideoEnd true true true c2StateB).2.1 = 0 ∧
      (handleVideoEnd true true true c2StateB).2.2 = false) :=
  ⟨(clip_end_policy c2StateA true true).1 (by decide),
    (clip_end_policy c2StateB true true).2 (by decide)⟩

/-- Counterexample to claim C3 as stated: in a session where a successful
autoplay has unmuted the player (isMuted = false), a subsequent failing play
attempt does not force isMuted to true — the failure path mutates only the
muted property of the media element, leaving the isMuted state false. -/
theorem tryPlay_failure_counterexample :
    (runSession 1 false c3Store [Event.playEffect true true]).1.isMuted = false ∧
    (runSession 1 false c3Store
        [Event.playEffect true true, Event.playEffect false false]).1.isMuted
      = false ∧
    (runSession 1 false c3Store
        [Event.playEffect true true, Event.playEffect false false]).1.elemMuted
      = true := by
  decide

/-- Claim C3 amended: on a successful play request, isMuted is cleared when
soundPreferenceUnmuted is true and the state is unchanged otherwise, with
exactly one play() call; on a failing play request, the muted property of the
media element is forced to true (the isMuted state field is not modified) and
playback is retried exactly once muted; a failing muted retry is only logged,
nothing else changes (in particular isPlaying is untouched), and no exception
propagates. -/
theorem tryPlay_protocol (s : PlayerState) (ok2 : Bool) :
    ((tryPlayVideo true true ok2 s).1 =
        (if s.shouldUnmute then { s with isMuted := false } else s) ∧
      (tryPlayVideo true true ok2 s).2 = 1) ∧
    ((tryPlayVideo true false ok2 s).1 = { s with elemMuted := true } ∧
      (tryPlayVideo true false ok2 s).2 = 2) := by
  refine ⟨⟨rfl, rfl⟩, rfl, ?_⟩
  cases ok2 <;> rfl

/-- Claim C9: the play/pause toggle (spacebar, or a click on the viewing
surface whose target is not a button) flips isPlaying and changes nothing
else: the rest of the player state and the store are untouched; a click that
lands on a button does not toggle. -/
theorem toggle_frame (n : Nat) (s : PlayerState) (st : Store) :
    step n (Event.keyDown KeyCode.space) (s, st) =
      ({ s with isPlaying := !s.isPlaying }, st) ∧
    step n (Event.videoClick false) (s, st) =
      ({ s with isPlaying := !s.isPlaying }, st) ∧
    step n (Event.videoClick true) (s, st) = (s, st) :=
  ⟨rfl, rfl, rfl⟩

/-- A predicate preserved by every session step is preserved by any event
sequence. -/
theorem steps_inv (n : Nat) (P : PlayerState × Store → Prop)
    (hstep : ∀ e ss, P ss → P (step n e ss)) :
    ∀ (evs : List Event) (ss0 : PlayerState × Store), P ss0 →
      P (evs.foldl (fun ss e => step n e ss) ss0)
  | [], _, h0 => h0
  | e :: evs, ss0, h0 =>
      steps_inv n P hstep evs (step n e ss0) (hstep e ss0 h0)

/-- No event changes the sound preference flag of the session. -/
theorem step_preserves_shouldUnmute (n : Nat) (e : Event)
    (ss : PlayerState × Store) :
    (step n e ss).1.shouldUnmute = ss.1.shouldUnmute := by
  obtain ⟨s, st⟩ := ss
  cases e with
  | keyDown k => cases k <;> simp [step, handleKeyPress, handleNavigation]
  | videoClick b => cases b <;> simp [step, handleVideoClick]
  | navClick d => simp [step, handleNavigation]
  | swipe d => simp [step, handleNavigation]
  | videoEnd o1 o2 =>
      simp only [step, handleVideoEnd, tryPlayVideo]
      split_ifs <;> simp
  | playEffect o1 o2 =>
      simp only [step, playEffectRun, tryPlayVideo]
      split_ifs <;> simp
  | welcomeTimer o1 o2 =>
      simp only [step, welcomeDismiss, tryPlayVideo]
      split_ifs <;> simp
  | unmuteButton =>
      simp only [step, unmuteClick]
      split_ifs <;> simp

/-- No event writes the "visited" key. -/
theorem step_preserves_visited (n : Nat) (e : Event)
    (ss : PlayerState × Store) :
    (step n e ss).2.visited = ss.2.visited := by
  obtain ⟨s, st⟩ := ss
  cases e with
  | keyDown k => cases k <;> simp [step]
  | videoClick b => cases b <;> simp [step]
  | navClick d => simp [step]
  | swipe d => simp [step]
  | videoEnd o1 o2 => simp [step]
  | playEffect o1 o2 => simp [step]
  | welcomeTimer o1 o2 =>
      simp only [step]
      split_ifs <;> simp [welcomeDismiss, unmuteClick]
  | unmuteButton =>
      simp only [step]
      split_ifs <;> simp [unmuteClick]

/-- Once isMuted is false, no event sets it back to true. -/
theorem step_preserves_isMuted_false (n : Nat) (e : Event)
    (ss : PlayerState × Store) (h : ss.1.isMuted = false) :
    (step n e ss).1.isMuted = false := by
  obtain ⟨s, st⟩ := ss
  cases e with
  | keyDown k => cases k <;> simp_all [step, handleKeyPress, handleNavigation]
  | videoClick b => cases b <;> simp_all [step, handleVideoClick]
  | navClick d => simp_all [step, handleNavigation]
  | swipe d => simp_all [step, handleNavigation]
  | videoEnd o1 o2 =>
      simp only [step, handleVideoEnd, tryPlayVideo]
      split_ifs <;> simp_all
  | playEffect o1 o2 =>
      simp only [step, playEffectRun, tryPlayVideo]
      split_ifs <;> simp_all
  | welcomeTimer o1 o2 =>
      simp only [step, welcomeDismiss, tryPlayVideo]
      split_ifs <;> simp_all
  | unmuteButton =>
      simp only [step, unmuteClick]
      split_ifs <;> simp_all

/-- Once the welcome overlay is gone, no event brings it back. -/
theorem step_preserves_showWelcome_false (n : Nat) (e : Event)
    (ss : PlayerState × Store) (h : ss.1.showWelcome = false) :
    (step n e ss).1.showWelcome = false := by
  obtain ⟨s, st⟩ := ss
  cases e with
  | keyDown k => cases k <;> simp_all [step, handleKeyPress, handleNavigation]
  | videoClick b => cases b <;> simp_all [step, handleVideoClick]
  | navClick d => simp_all [step, handleNavigation]
  | swipe d => simp_all [step, handleNavigation]
  | videoEnd o1 o2 =>
      simp only [step, handleVideoEnd, tryPlayVideo]
      split_ifs <;> simp_all
  | playEffect o1 o2 =>
      simp only [step, playEffectRun, tryPlayVideo]
      split_ifs <;> simp_all
  | welcomeTimer o1 o2 =>
      simp only [step, welcomeDismiss, tryPlayVideo]
      split_ifs <;> simp_all
  | unmuteButton =>
      simp only [step, unmuteClick]
      split_ifs <;> simp_all

/-- Without the stored unmuted preference, no event can clear isMuted. -/
theorem step_muted_when_no_preference (n : Nat) (e : Event)
    (ss : PlayerState × Store) (hsu : ss.1.shouldUnmute = false)
    (h : ss.1.isMuted = true) :
    (step n e ss).1.isMuted = true := by
  obtain ⟨s, st⟩ := ss
  cases e with
  | keyDown k => cases k <;> simp_all [step, handleKeyPress, handleNavigation]
  | videoClick b => cases b <;> simp_all [step, handleVideoClick]
  | navClick d => simp_all [step, handleNavigation]
  | swipe d => simp_all [step, handleNavigation]
  | videoEnd o1 o2 =>
      simp only [step, handleVideoEnd, tryPlayVideo]
      split_ifs <;> simp_all
  | playEffect o1 o2 =>
      simp only [step, playEffectRun, tryPlayVideo]
      split_ifs <;> simp_all
  | welcomeTimer o1 o2 =>
      simp only [step, welcomeDismiss, tryPlayVideo]
      split_ifs <;> simp_all
  | unmuteButton =>
      simp only [step, unmuteClick, unmuteButtonVisible]
      split_ifs <;> simp_all

/-- Without the stored unmuted preference, no event writes the "videoMuted"
key (the only writer is the unmute control, which is gated on the
preference). -/
theorem step_preserves_videoMuted_when_no_preference (n : Nat) (e : Event)
    (ss : PlayerState × Store) (hsu : ss.1.shouldUnmute = false) :
    (step n e ss).2.videoMuted = ss.2.videoMuted := by
  obtain ⟨s, st⟩ := ss
  cases e with
  | keyDown k => cases k <;> simp_all [step]
  | videoClick b => cases b <;> simp_all [step]
  | navClick d => simp_all [step]
  | swipe d => simp_all [step]
  | videoEnd o1 o2 => simp_all [step]
  | playEffect o1 o2 => simp_all [step]
  | welcomeTimer o1 o2 =>
      simp only [step]
      split_ifs <;> simp [welcomeDismiss, unmuteClick]
  | unmuteButton =>
      simp only [step, unmuteButtonVisible]
      split_ifs <;> simp_all [unmuteClick]

/-- isMuted can flip from true to false only on a play attempt whose first
play() resolves while the preference asks for sound, or on an unmute click. -/
theorem step_unmutes_only_via (n : Nat) (e : Event)
    (ss : PlayerState × Store) (h : ss.1.isMuted = true)
    (h2 : (step n e ss).1.isMuted = false) :
    eventUnmutes ss.1.shouldUnmute e = true := by
  obtain ⟨s, st⟩ := ss
  cases e with
  | keyDown k => cases k <;> simp_all [step, handleKeyPress, handleNavigation]
  | videoClick b => cases b <;> simp_all [step, handleVideoClick]
  | navClick d => simp_all [step, handleNavigation]
  | swipe d => simp_all [step, handleNavigation]
  | videoEnd o1 o2 =>
      cases o1 <;>
        (simp_all only [step, handleVideoEnd, tryPlayVideo, eventUnmutes]
         split_ifs at h2 <;> simp_all)
  | playEffect o1 o2 =>
      cases o1 <;>
        (simp_all only [step, playEffectRun, tryPlayVideo, eventUnmutes]
         split_ifs at h2 <;> simp_all)
  | welcomeTimer o1 o2 =>
      cases o1 <;>
        (simp_all only [step, welcomeDismiss, tryPlayVideo, eventUnmutes]
         split_ifs at h2 <;> simp_all)
  | unmuteButton => simp [eventUnmutes]

/-- The sound preference flag over a whole session equals its startup read. -/
theorem runSession_shouldUnmute (n : Nat) (fv : Bool) (st : Store)
    (evs : List Event) :
    (runSession n fv st evs).1.shouldUnmute = shouldUnmuteInit st :=
  steps_inv n (fun ss => ss.1.shouldUnmute = shouldUnmuteInit st)
    (fun e ss hss => by
      show (step n e ss).1.shouldUnmute = shouldUnmuteInit st
      rw [step_preserves_shouldUnmute]
      exact hss)
    evs (initPlayer fv st, st) rfl

/-- The "visited" key is constant over a mounted session. -/
theorem runSession_visited (n : Nat) (fv : Bool) (st : Store)
    (evs : List Event) :
    (runSession n fv st evs).2.visited = st.visited :=
  steps_inv n (fun ss => ss.2.visited = st.visited)
    (fun e ss hss => by
      show (step n e ss).2.visited = st.visited
      rw [step_preserves_visited]
      exact hss)
    evs (initPlayer fv st, st) rfl

/-- After the App first-visit initializer runs, the "visited" key is never
falsy again. -/
theorem isFirstVisitInit_marks (st : Store) :
    jsFalsy ((isFirstVisitInit st).2).visited = false := by
  simp only [isFirstVisitInit]
  split_ifs with h
  · show jsFalsy (some "true") = false
    decide
  · show jsFalsy st.visited = false
    simp only [Bool.not_eq_true] at h
    exact h

/-- Claim C4: over every event sequence of a session, isMuted flips from true
to false only on a play attempt whose play() resolves while the stored sound
preference is set, or on an explicit unmute click; once false it never
becomes true again; if the preference was persisted as "false" (sound on), a
successful run of the play effect while playing clears isMuted with no user
action; and with any other stored preference isMuted remains true for the
entire session. -/
theorem mute_invariant (n : Nat) (fv : Bool) (st : Store) (evs : List Event)
    (e : Event) (ok2 : Bool) :
    ((runSession n fv st evs).1.isMuted = true →
      (step n e (runSession n fv st evs)).1.isMuted = false →
      eventUnmutes (shouldUnmuteInit st) e = true) ∧
    ((runSession n fv st evs).1.isMuted = false →
      (step n e (runSession n fv st evs)).1.isMuted = false) ∧
    (st.videoMuted = some "false" →
      (runSession n fv st evs).1.isPlaying = true →
      (step n (Event.playEffect true ok2)
        (runSession n fv st evs)).1.isMuted = false) ∧
    (st.videoMuted ≠ some "false" →
      (runSession n fv st evs).1.isMuted = true) := by
  refine ⟨?_, ?_, ?_, ?_⟩
  · intro h1 h2
    have h3 := step_unmutes_only_via n e _ h1 h2
    rwa [runSession_shouldUnmute] at h3
  · intro h
    exact step_preserves_isMuted_false n e _ h
  · intro hp hplay
    have hsu : (runSession n fv st evs).1.shouldUnmute = true := by
      rw [runSession_shouldUnmute]
      simp [shouldUnmuteInit, hp]
    simp [step, playEffectRun, tryPlayVideo, hplay, hsu]
  · intro hp
    have hsu0 : shouldUnmuteInit st = false := by
      simp [shouldUnmuteInit, hp]
    have h := steps_inv n
      (fun ss => ss.1.shouldUnmute = false ∧ ss.1.isMuted = true)
      (fun e2 ss hss =>
        ⟨by rw [step_preserves_shouldUnmute]; exact hss.1,
          step_muted_when_no_preference n e2 ss hss.1 hss.2⟩)
      evs (initPlayer fv st, st) ⟨by simp [initPlayer, hsu0], rfl⟩
    exact h.2

/-- Witness for mute_invariant: unmuting via the control from the muted
start, persistence of isMuted = false across a toggle, the automatic unmute
on the first successful play with the stored preference, and permanent
muting without it. -/
theorem mute_invariant_witness :
    eventUnmutes (shouldUnmuteInit c3Store) Event.unmuteButton = true ∧
    (step 1 (Event.keyDown KeyCode.space)
        (runSession 1 false c3Store [Event.playEffect true true])).1.isMuted
      = false ∧
    (step 1 (Event.playEffect true true)
        (runSession 1 false c3Store [])).1.isMuted = false ∧
    (runSession 1 false mutedStore [Event.playEffect true true]).1.isMuted
      = true := by
  refine ⟨?_, ?_, ?_, ?_⟩
  · exact (mute_invariant 1 false c3Store [] Event.unmuteButton true).1
      (by decide) (by decide)
  · exact (mute_invariant 1 false c3Store [Event.playEffect true true]
      (Event.keyDown KeyCode.space) true).2.1 (by decide)
  · exact (mute_invariant 1 false c3Store [] (Event.playEffect true true)
      true).2.2.1 (by decide) (by decide)
  · exact (mute_invariant 1 false mutedStore [Event.playEffect true true]
      Event.unmuteButton true).2.2.2 (by decide)

/-- Claim C5: the welcome overlay is shown at session start iff
hasVisitedBefore returned false; when showing, the timer dismissal (a fixed
3000 ms) hides it and issues a Play Attempt; once hidden it is never
re-shown by any further events; and in any later session of the same
storage lifetime it does not appear at all. -/
theorem welcome_overlay (n n2 : Nat) (st0 st : Store) (s : PlayerState)
    (ok1 ok2 : Bool) (evs more evs2 : List Event) :
    ((sessionRun n st0 []).1.showWelcome = true ↔
      (hasVisitedBefore st0).1 = false) ∧
    (s.showWelcome = true →
      (step n (Event.welcomeTimer ok1 ok2) (s, st)).1.showWelcome = false ∧
      1 ≤ (welcomeDismiss true ok1 ok2 s).2) ∧
    welcomeTimerMs = 3000 ∧
    ((sessionRun n st0 evs).1.showWelcome = false →
      (sessionRun n st0 (evs ++ more)).1.showWelcome = false) ∧
    (sessionRun n2 ((sessionRun n st0 evs).2) evs2).1.showWelcome = false := by
  refine ⟨?_, ?_, rfl, ?_, ?_⟩
  · simp [sessionRun, runSession, initPlayer, hasVisitedBefore]
  · intro h
    constructor
    · simp only [step, h, if_true]
      simp only [welcomeDismiss, tryPlayVideo]
      split_ifs <;> simp
    · simp only [welcomeDismiss, tryPlayVideo]
      split_ifs <;> simp
  · intro h
    have hsplit : sessionRun n st0 (evs ++ more) =
        more.foldl (fun ss e => step n e ss) (sessionRun n st0 evs) := by
      simp [sessionRun, runSession, List.foldl_append]
    rw [hsplit]
    exact steps_inv n (fun ss => ss.1.showWelcome = false)
      (fun e ss hss => step_preserves_showWelcome_false n e ss hss) more _ h
  · have hv : jsFalsy ((sessionRun n st0 evs).2).visited = false := by
      have h1 : ((sessionRun n st0 evs).2).visited =
          ((isFirstVisitInit st0).2).visited :=
        runSession_visited n (isFirstVisitInit st0).1 (isFirstVisitInit st0).2 evs
      rw [h1]
      exact isFirstVisitInit_marks st0
    have hfv : isFirstVisitInit ((sessionRun n st0 evs).2) =
        (false, (sessionRun n st0 evs).2) := by
      simp [isFirstVisitInit, hv]
    show (runSession n2 _ _ evs2).1.showWelcome = false
    rw [hfv]
    exact steps_inv n2 (fun ss => ss.1.showWelcome = false)
      (fun e ss hss => step_preserves_showWelcome_false n2 e ss hss) evs2
      _ (by simp [initPlayer])

/-- Witness for welcome_overlay: a fresh store shows the overlay, the timer
dismisses it with a play attempt, the dismissed state persists through
further events, and a second session never shows it. -/
theorem welcome_overlay_witness :
    ((sessionRun 1 freshStore []).1.showWelcome = true ↔
      (hasVisitedBefore freshStore).1 = false) ∧
    ((step 1 (Event.welcomeTimer true true)
        (initPlayer true freshStore, freshStore)).1.showWelcome = false ∧
      1 ≤ (welcomeDismiss true true true (initPlayer true freshStore)).2) ∧
    (sessionRun 1 freshStore
        ([Event.welcomeTimer true true] ++ [Event.keyDown KeyCode.space])).1.showWelcome
      = false ∧
    (sessionRun 1 ((sessionRun 1 freshStore []).2) []).1.showWelcome = false := by
  have h := welcome_overlay 1 1 freshStore freshStore
    (initPlayer true freshStore) true true [Event.welcomeTimer true true]
    [Event.keyDown KeyCode.space] []
  exact ⟨h.1, h.2.1 (by decide), h.2.2.2.1 (by decide), h.2.2.2.2⟩

/-- Counterexample to claim C6 as stated: in a first-visit session the
welcome overlay is showing and isPlaying is already true, so the mount run of
the play effect issues a play attempt immediately — autoplay is not deferred
while the overlay shows (the video element also carries the autoPlay
attribute). -/
theorem welcome_defer_counterexample :
    (sessionRun 1 freshStore []).1.showWelcome = true ∧
    (sessionRun 1 freshStore []).1.isPlaying = true ∧
    (playEffectRun true true true (sessionRun 1 freshStore []).1).2 = 1 ∧
    styledVideoAutoPlay = true := by
  decide

/-- Claim C6 amended: the play effect is not suppressed while the welcome
overlay is showing: at initialization of a first-visit session isPlaying is
true and the overlay is visible, yet the effect issues a play attempt (and
the video element has the autoPlay attribute); when the overlay dismisses, a
further Play Attempt is issued. -/
theorem init_play_not_deferred (st : Store) (ok1 ok2 : Bool) :
    (initPlayer true st).showWelcome = true ∧
    (initPlayer true st).isPlaying = true ∧
    1 ≤ (playEffectRun true ok1 ok2 (initPlayer true st)).2 ∧
    styledVideoAutoPlay = true ∧
    (welcomeDismiss true ok1 ok2 (initPlayer true st)).1.showWelcome = false ∧
    1 ≤ (welcomeDismiss true ok1 ok2 (initPlayer true st)).2 := by
  refine ⟨rfl, rfl, ?_, rfl, ?_, ?_⟩
  · simp only [playEffectRun, tryPlayVideo, initPlayer]
    split_ifs <;> simp
  · simp only [welcomeDismiss, tryPlayVideo, initPlayer]
    split_ifs <;> simp
  · simp only [welcomeDismiss, tryPlayVideo, initPlayer]
    split_ifs <;> simp

/-- Claim C7: every fetch failure and the empty sentinel leave the empty clip
list; with the fetch finished and an empty list, App renders the terminal
"No videos to display." view and never the player, so no playback attempt and
no indexing into the clip list can occur (the player view is only ever
produced for a non-empty list; the standalone variant likewise renders its
placeholder for the empty list); and the navigation arithmetic, which uses no
division at all, keeps the index in [0, n) for every non-empty length. -/
theorem empty_list_safety (fv loading : Bool) (vids vs : List Video)
    (fv2 : Bool) (r : FetchResult) (dir : NavDirection) (n : Nat)
    (s : PlayerState) :
    fetchedVideos FetchResult.networkError = [] ∧
    fetchedVideos FetchResult.noMoreNewVideos = [] ∧
    fetchedVideos FetchResult.parseFailure = [] ∧
    (fetchedVideos r = [] →
      appRender false (fetchedVideos r) fv = AppView.noVideosText) ∧
    (appRender loading vids fv = AppView.moviePlayer vs fv2 →
      0 < vids.length) ∧
    moviePlayer0Render [] = Player0View.loadingText ∧
    (1 ≤ n → s.currentIndex < n →
      (handleNavigation dir n s).currentIndex < n) := by
  refine ⟨rfl, rfl, rfl, ?_, ?_, rfl, ?_⟩
  · intro h
    rw [h]
    rfl
  · intro h
    simp only [appRender] at h
    split_ifs at h with h1 h2
    exact h2
  · intro hn hi
    cases dir <;> simp only [handleNavigation] <;> split_ifs <;> omega

/-- Witness for empty_list_safety: a parse failure renders the terminal
view, a singleton list renders the player, and navigation from index 1 of a
2-clip list stays in range. -/
theorem empty_list_safety_witness :
    appRender false (fetchedVideos FetchResult.parseFailure) false
      = AppView.noVideosText ∧
    0 < [sampleVideo].length ∧
    (handleNavigation NavDirection.next 2 c2StateA).currentIndex < 2 := by
  have h := empty_list_safety false false [sampleVideo] [sampleVideo] false
    FetchResult.parseFailure NavDirection.next 2 c2StateA
  exact ⟨h.2.2.2.1 (by decide), h.2.2.2.2.1 (by decide),
    h.2.2.2.2.2.2 (by decide) (by decide)⟩

/-- After a store is marked visited, every call returns true and never
writes. -/
theorem runCalls_marked (k : Nat) (st : Store)
    (h : jsFalsy st.visited = false) :
    runCalls k st = (List.replicate k true, st) := by
  induction k with
  | zero => simp [runCalls]
  | succ k ih =>
      simp [runCalls, hasVisitedBefore, isFirstVisitInit, h, ih,
        List.replicate_succ]

/-- Claim C8: from a store whose visited marker has never been written, the
first hasVisitedBefore call returns false and writes the marker, and every
one of the k following calls (same or later sessions) returns true; the
final store equals exactly the write of the first call, so the marker is written
on the first call only. -/
theorem visited_false_exactly_once (k : Nat) (st : Store)
    (h : jsFalsy st.visited = true) :
    (runCalls (k + 1) st).1 = false :: List.replicate k true ∧
    (runCalls (k + 1) st).2 = { st with visited := some "true" } := by
  have h1 : hasVisitedBefore st = (false, { st with visited := some "true" }) := by
    simp [hasVisitedBefore, isFirstVisitInit, h]
  have h2 : jsFalsy (({ st with visited := some "true" } : Store)).visited
      = false := by
    show jsFalsy (some "true") = false
    decide
  constructor
  · simp [runCalls, h1, runCalls_marked k _ h2]
  · simp [runCalls, h1, runCalls_marked k _ h2]

/-- Witness for visited_false_exactly_once: three calls on a fresh store
return false, true, true and leave only the marker write. -/
theorem visited_false_exactly_once_witness :
    (runCalls 3 freshStore).1 = false :: List.replicate 2 true ∧
    (runCalls 3 freshStore).2 = { freshStore with visited := some "true" } :=
  visited_false_exactly_once 2 freshStore (by decide)

/-- Claim C10: the unmute control is rendered exactly when isMuted and the
sound preference of the session both hold; that preference equals the startup
read of the stored "videoMuted" flag (true only when it was already the
string "false") at every point of every session; and when the stored flag
was anything else, no event sequence writes the sound preference, isMuted
stays true, and the control is never rendered — a user without the stored
unmuted preference has no reachable action that enables sound. -/
theorem unmute_gating (n : Nat) (fv : Bool) (st : Store) (evs : List Event)
    (s : PlayerState) :
    unmuteButtonVisible s = (s.isMuted && s.shouldUnmute) ∧
    (runSession n fv st evs).1.shouldUnmute = shouldUnmuteInit st ∧
    (st.videoMuted ≠ some "false" →
      (runSession n fv st evs).2.videoMuted = st.videoMuted ∧
      (runSession n fv st evs).1.isMuted = true ∧
      unmuteButtonVisible (runSession n fv st evs).1 = false) := by
  refine ⟨rfl, runSession_shouldUnmute n fv st evs, ?_⟩
  intro hp
  have hsu0 : shouldUnmuteInit st = false := by
    simp [shouldUnmuteInit, hp]
  have h := steps_inv n
    (fun ss => ss.1.shouldUnmute = false ∧ ss.1.isMuted = true ∧
      ss.2.videoMuted = st.videoMuted)
    (fun e ss hss =>
      ⟨by
        show (step n e ss).1.shouldUnmute = false
        rw [step_preserves_shouldUnmute]
        exact hss.1,
        step_muted_when_no_preference n e ss hss.1 hss.2.1,
        by
          show (step n e ss).2.videoMuted = st.videoMuted
          rw [step_preserves_videoMuted_when_no_preference n e ss hss.1]
          exact hss.2.2⟩)
    evs (initPlayer fv st, st) ⟨by simp [initPlayer, hsu0], rfl, rfl⟩
  obtain ⟨ha, hb, hc⟩ := h
  refine ⟨hc, hb, ?_⟩
  simp only [unmuteButtonVisible, runSession]
  rw [ha]
  simp

/-- Witness for unmute_gating: with no stored preference, a session that
clicks where the unmute control would be and plays successfully still ends
muted, with the store unchanged and the control hidden. -/
theorem unmute_gating_witness :
    unmuteButtonVisible c2StateA = (c2StateA.isMuted && c2StateA.shouldUnmute) ∧
    (runSession 1 false mutedStore
        [Event.unmuteButton, Event.playEffect true true]).1.shouldUnmute
      = shouldUnmuteInit mutedStore ∧
    ((runSession 1 false mutedStore
        [Event.unmuteButton, Event.playEffect true true]).2.videoMuted
      = mutedStore.videoMuted ∧
    (runSession 1 false mutedStore
        [Event.unmuteButton, Event.playEffect true true]).1.isMuted = true ∧
    unmuteButtonVisible (runSession 1 false mutedStore
        [Event.unmuteButton, Event.playEffect true true]).1 = false) := by
  have h := unmute_gating 1 false mutedStore
    [Event.unmuteButton, Event.playEffect true true] c2StateA
  exact ⟨h.1, h.2.1, h.2.2 (by decide)⟩

end Movieme
